import Mathlib

/-!
Verification of the notification-lifecycle manager of `desktop_notifier/base.py`.

The Python module is shallowly embedded below.  Conventions of the embedding:

* Python object identity (used by `deque.remove` and dict values, since
  `Notification` defines no `__eq__`) is modelled by an `objId : Nat` field;
  two structure values with the same `objId` model the same Python object.
* The mutable `_identifier` attribute is modelled functionally: the state
  holds the notification value with its current `_identifier` field.
* The backend methods `_send`, `_clear`, `_clear_all` are abstract
  (`raise NotImplementedError` in the source); their outcome is passed as an
  explicit parameter (`SendOutcome` / `ClearOutcome`).  A successful `_send`
  carries the value of `notification.identifier` at the moment `_send`
  returns, since the wrapper reads it afterwards.
* A raised Python exception is returned as `some (r : Raised)`; every raise
  point in the source occurs before any cache mutation of the raising
  operation, so the state component returned alongside `some r` equals the
  state at the raise point.
* `logger.warning` in `send`'s `except` block is modelled by a `Bool` flag
  in `send`'s result (`true` iff the warning was emitted).
* Callback attributes (`on_pressed`, `on_clicked`, ...) are opaque handles
  (`Option Nat`); the core stores and forwards them, never calls them.
* `PYTHON_ICON_PATH` (a filesystem resource) is not modelled; no claim
  mentions it.
-/

namespace DesktopNotifier

/-- Model of the module constant `DEFAULT_SOUND = "default"`. -/
def DEFAULT_SOUND : String := "default"

/-- Model of the `Urgency` enumeration. -/
inductive Urgency where
  | Critical
  | Normal
  | Low
deriving DecidableEq

/-- The string value attached to each `Urgency` member in the source. -/
def Urgency.value : Urgency → String
  | .Critical => "critical"
  | .Normal => "normal"
  | .Low => "low"

/-- Model of class `Button`; `on_pressed` is an opaque callback handle
(its Python default is `None`). -/
structure Button where
  title : String
  on_pressed : Option Nat
deriving DecidableEq

/-- Model of class `ReplyField`; the source's Python defaults are
`title="Reply"`, `button_title="Send"`, `on_replied=None`. -/
structure ReplyField where
  title : String
  button_title : String
  on_replied : Option Nat
deriving DecidableEq

/-- Model of class `Notification`.  `objId` models Python object identity
(the class defines no `__eq__`, so `deque.remove` compares by identity). -/
structure Notification where
  objId : Nat
  _identifier : String
  _winrt_identifier : String
  _macos_identifier : String
  _dbus_identifier : Nat
  title : String
  message : String
  urgency : Urgency
  icon : Option String
  buttons : List Button
  reply_field : Option ReplyField
  on_clicked : Option Nat
  on_dismissed : Option Nat
  attachment : Option String
  sound_file : Option String
  thread : Option String
  timeout : Int
deriving DecidableEq

/-- Model of the `identifier` property getter. -/
def Notification.identifier (n : Notification) : String := n._identifier

/-- Model of the `identifier` property setter (functional update). -/
def Notification.set_identifier (n : Notification) (nid : String) : Notification :=
  { n with _identifier := nid }

/-- A Python warning emitted during construction (`warnings.warn`). -/
inductive PyWarning where
  | deprecation (msg : String)
deriving DecidableEq

/-- Model of `Notification.__init__`; `objId` models the identity of the
freshly allocated object.  All arguments are explicit here; the source's
Python defaults are `urgency=Normal`, `sound=False`, `timeout=-1` and
`None`/empty for the rest.  Returns the constructed object together with
the warnings emitted. -/
def Notification.init (objId : Nat) (title message : String)
    (urgency : Urgency) (icon : Option String)
    (buttons : List Button) (reply_field : Option ReplyField)
    (on_clicked : Option Nat) (on_dismissed : Option Nat)
    (attachment : Option String) (sound : Bool)
    (thread : Option String) (timeout : Int)
    (sound_file : Option String) : Notification × List PyWarning :=
  let warns : List PyWarning :=
    if sound = true then
      [.deprecation "Use sound_file=DEFAULT_SOUND instead of sound=True."]
    else []
  let sound_file := if sound = true then some DEFAULT_SOUND else sound_file
  (⟨objId, "", "", "", 0, title, message, urgency, icon, buttons, reply_field,
    on_clicked, on_dismissed, attachment, sound_file, thread, timeout⟩, warns)

/-- Model of the `Capability` enumeration. -/
inductive Capability where
  | APP_NAME | TITLE | MESSAGE | URGENCY | ICON | ICON_FILE | ICON_NAME
  | BUTTONS | REPLY_FIELD | ATTACHMENT | ON_CLICKED | ON_DISMISSED
  | SOUND | SOUND_FILE | SOUND_NAME | THREAD | TIMEOUT
deriving DecidableEq

/-- A Python exception value raised by a backend primitive. -/
inductive PyExc where
  | exc (msg : String)
deriving DecidableEq

/-- An exception propagating out of a wrapper method to its caller. -/
inductive Raised where
  | indexError
  | fromBackend (e : PyExc)
deriving DecidableEq

/-- Outcome of the abstract backend primitive `_send`: on success, the value
of `notification.identifier` after `_send` returned (backends assign it);
on failure, the exception raised. -/
inductive SendOutcome where
  | success (identifier : String)
  | failure (e : PyExc)
deriving DecidableEq

/-- Outcome of the abstract backend primitives `_clear` / `_clear_all`. -/
inductive ClearOutcome where
  | success
  | failure (e : PyExc)
deriving DecidableEq

/-- Append on a `collections.deque` with the given `maxlen`: when full, the
leftmost (oldest) elements are silently discarded. -/
def dequeAppend (maxlen : Option Nat) (dq : List Notification)
    (n : Notification) : List Notification :=
  match maxlen with
  | none => dq ++ [n]
  | some m =>
    let dq' := dq ++ [n]
    dq'.drop (dq'.length - m)

/-- `appendleft` on a `collections.deque` with the given `maxlen`: when
full, the rightmost elements are silently discarded. -/
def dequeAppendLeft (maxlen : Option Nat) (dq : List Notification)
    (n : Notification) : List Notification :=
  match maxlen with
  | none => n :: dq
  | some m => (n :: dq).take m

/-- Model of `deque.remove(notification)` wrapped in `try/except ValueError:
pass`: removes the first element with the same object identity, or leaves
the deque unchanged when absent. -/
def dequeRemove : List Notification → Notification → List Notification
  | [], _ => []
  | m :: rest, n => if m.objId == n.objId then rest else m :: dequeRemove rest n

/-- Lookup in the `_notification_for_nid` dict (first entry with the key). -/
def dictGet (d : List (String × Notification)) (k : String) :
    Option Notification :=
  (d.find? (fun p => p.1 == k)).map (fun p => p.2)

/-- Python dict assignment `d[k] = v`: replaces the value in place when the
key exists (dict keys are unique, so the first occurrence is the only one),
otherwise appends the new entry. -/
def dictInsert : List (String × Notification) → String → Notification →
    List (String × Notification)
  | [], k, v => [(k, v)]
  | p :: t, k, v => if p.1 = k then (k, v) :: t else p :: dictInsert t k v

/-- Model of `dict.pop(k)` wrapped in `try/except KeyError: pass`: removes
the entry with key `k` when present. -/
def dictPop (d : List (String × Notification)) (k : String) :
    List (String × Notification) :=
  d.filter (fun p => p.1 != k)

/-- Model of class `DesktopNotifierBase`: its constructor-set attributes.
The deque `_current_notifications` (oldest first) was created with
`maxlen = notification_limit`. -/
structure DesktopNotifierBase where
  app_name : String
  notification_limit : Option Nat
  _current_notifications : List Notification
  _notification_for_nid : List (String × Notification)
deriving DecidableEq

/-- Model of `DesktopNotifierBase.__init__`. -/
def DesktopNotifierBase.init (app_name : String)
    (notification_limit : Option Nat) : DesktopNotifierBase :=
  { app_name := app_name
    notification_limit := notification_limit
    _current_notifications := []
    _notification_for_nid := [] }

/-- A notifier constructed with no arguments: the source's Python defaults
are `app_name = "Python"` and `notification_limit = None`. -/
def DesktopNotifierBase.initDefault : DesktopNotifierBase :=
  DesktopNotifierBase.init "Python" none

/-- Model of the `current_notifications` property (a list copy of the
deque). -/
def DesktopNotifierBase.current_notifications (d : DesktopNotifierBase) :
    List Notification :=
  d._current_notifications

/-- The eviction test in `send`:
`len(self._current_notifications) == self.notification_limit`.  Comparing an
`int` with `None` is `False` in Python. -/
def atLimit (limit : Option Nat) (dq : List Notification) : Bool :=
  match limit with
  | none => false
  | some m => dq.length == m

/-- Shared tail of `send` after the eviction step: the `try/except/else`
block.  `evicted` is `notification_to_replace`, `dq` the deque contents
after the eviction step. -/
def sendRest (d : DesktopNotifierBase) (n : Notification) (res : SendOutcome)
    (evicted : Option Notification) (dq : List Notification) :
    DesktopNotifierBase × Option Raised × Bool :=
  match res with
  | .failure _ =>
    match evicted with
    | some old =>
      ({ d with _current_notifications :=
          dequeAppendLeft d.notification_limit dq old }, none, true)
    | none => ({ d with _current_notifications := dq }, none, true)
  | .success nid =>
    let n' := n.set_identifier nid
    ({ d with
        _current_notifications := dequeAppend d.notification_limit dq n'
        _notification_for_nid := dictInsert d._notification_for_nid nid n' },
      none, false)

/-- Model of `DesktopNotifierBase.send`.  Pops the oldest entry when the
deque length equals `notification_limit` (raising `IndexError` when the
deque is empty, i.e. `notification_limit = 0`), then runs the
`try/except/else` block modelled by `sendRest`. -/
def DesktopNotifierBase.send (d : DesktopNotifierBase) (n : Notification)
    (res : SendOutcome) : DesktopNotifierBase × Option Raised × Bool :=
  if atLimit d.notification_limit d._current_notifications then
    match d._current_notifications with
    | [] => (d, some Raised.indexError, false)
    | old :: rest => sendRest d n res (some old) rest
  else
    sendRest d n res none d._current_notifications

/-- Model of `DesktopNotifierBase._clear_notification_from_cache`. -/
def DesktopNotifierBase._clear_notification_from_cache
    (d : DesktopNotifierBase) (n : Notification) : DesktopNotifierBase :=
  { d with
    _current_notifications := dequeRemove d._current_notifications n
    _notification_for_nid :=
      if n.identifier = "" then d._notification_for_nid
      else dictPop d._notification_for_nid n.identifier }

/-- Model of `DesktopNotifierBase.clear`.  When the identifier is non-empty
the backend `_clear` runs first; an exception it raises propagates before
the cache is touched. -/
def DesktopNotifierBase.clear (d : DesktopNotifierBase) (n : Notification)
    (res : ClearOutcome) : DesktopNotifierBase × Option Raised :=
  if n.identifier = "" then
    (d._clear_notification_from_cache n, none)
  else
    match res with
    | .failure e => (d, some (.fromBackend e))
    | .success => (d._clear_notification_from_cache n, none)

/-- Model of `DesktopNotifierBase.clear_all`.  An exception raised by the
backend `_clear_all` propagates before the cache is touched. -/
def DesktopNotifierBase.clear_all (d : DesktopNotifierBase)
    (res : ClearOutcome) : DesktopNotifierBase × Option Raised :=
  match res with
  | .failure e => (d, some (.fromBackend e))
  | .success =>
    ({ d with _current_notifications := [], _notification_for_nid := [] },
      none)

theorem dictGet_pop_self (d : List (String × Notification)) (k : String) :
    dictGet (dictPop d k) k = none := by
  have h : (dictPop d k).find? (fun p => p.1 == k) = none := by
    rw [List.find?_eq_none]
    intro p hp
    have := List.of_mem_filter hp
    simp only [bne_iff_ne, ne_eq] at this
    simp [this]
  simp [dictGet, h]

theorem dictGet_pop_ne (d : List (String × Notification)) (k k' : String)
    (h : k' ≠ k) : dictGet (dictPop d k) k' = dictGet d k' := by
  induction d with
  | nil => rfl
  | cons p t ih =>
    by_cases hk : p.1 = k
    · have h1 : (p.1 != k) = false := by simp [hk]
      have h2 : (p.1 == k') = false := by
        rw [beq_eq_false_iff_ne, hk]
        exact Ne.symm h
      simp only [dictPop, List.filter_cons, h1, Bool.false_eq_true, if_false]
      rw [show dictGet (p :: t) k' = dictGet t k' by
        simp [dictGet, List.find?_cons, h2]]
      exact ih
    · have h1 : (p.1 != k) = true := by simp [hk]
      simp only [dictPop, List.filter_cons, h1, if_true]
      by_cases h2 : p.1 = k'
      · simp [dictGet, List.find?_cons, h2]
      · have h2' : (p.1 == k') = false := by simp [h2]
        simp only [dictGet, List.find?_cons, h2', Bool.false_eq_true]
        simpa [dictGet, dictPop] using ih

theorem dictGet_insert_self (d : List (String × Notification)) (k : String)
    (v : Notification) : dictGet (dictInsert d k v) k = some v := by
  induction d with
  | nil => simp [dictInsert, dictGet]
  | cons p t ih =>
    by_cases hk : p.1 = k
    · simp [dictInsert, hk, dictGet, List.find?_cons]
    · simp only [dictInsert, hk, if_false]
      have hk' : (p.1 == k) = false := by simp [hk]
      simpa [dictGet, List.find?_cons, hk'] using ih

theorem dictGet_insert_ne (d : List (String × Notification)) (k k' : String)
    (v : Notification) (h : k' ≠ k) :
    dictGet (dictInsert d k v) k' = dictGet d k' := by
  induction d with
  | nil =>
    have h2 : (k == k') = false := by simp [Ne.symm h]
    simp [dictInsert, dictGet, List.find?_cons, h2]
  | cons p t ih =>
    by_cases hk : p.1 = k
    · have h2 : (k == k') = false := by simp [Ne.symm h]
      have h3 : (p.1 == k') = false := by simp [hk, Ne.symm h]
      simp [dictInsert, hk, dictGet, List.find?_cons, h2, h3]
    · simp only [dictInsert, hk, if_false]
      by_cases h2 : p.1 = k'
      · simp [dictGet, List.find?_cons, h2]
      · have h2' : (p.1 == k') = false := by simp [h2]
        simp only [dictGet, List.find?_cons, h2', Bool.false_eq_true]
        simpa [dictGet] using ih

theorem dequeRemove_sublist (l : List Notification) (n : Notification) :
    List.Sublist (dequeRemove l n) l := by
  induction l with
  | nil => exact List.Sublist.refl _
  | cons m rest ih =>
    by_cases h : m.objId = n.objId
    · simp only [dequeRemove, h, beq_self_eq_true, if_true]
      exact List.Sublist.cons m (List.Sublist.refl rest)
    · have h' : (m.objId == n.objId) = false := by simp [h]
      simp only [dequeRemove, h', Bool.false_eq_true, if_false]
      exact List.Sublist.cons₂ m ih

theorem mem_of_mem_dequeRemove {l : List Notification} {n m : Notification}
    (h : m ∈ dequeRemove l n) : m ∈ l :=
  (dequeRemove_sublist l n).subset h

/-- Number of elements of `l` with the same object identity as `n`. -/
def objCount (n : Notification) (l : List Notification) : Nat :=
  (l.filter (fun m => m.objId == n.objId)).length

theorem objCount_eq_zero_iff (n : Notification) (l : List Notification) :
    objCount n l = 0 ↔ ∀ m ∈ l, m.objId ≠ n.objId := by
  simp [objCount, List.length_eq_zero, List.filter_eq_nil_iff]

theorem dequeRemove_eq_self {l : List Notification} {n : Notification}
    (h : ∀ m ∈ l, m.objId ≠ n.objId) : dequeRemove l n = l := by
  induction l with
  | nil => rfl
  | cons m rest ih =>
    have h1 : (m.objId == n.objId) = false := by
      simpa using h m (List.mem_cons_self m rest)
    simp only [dequeRemove, h1, Bool.false_eq_true, if_false]
    exact congrArg (m :: ·) (ih fun q hq => h q (List.mem_cons_of_mem m hq))

theorem objCount_dequeRemove {l : List Notification} {n : Notification}
    (h : objCount n l ≤ 1) : objCount n (dequeRemove l n) = 0 := by
  induction l with
  | nil => rfl
  | cons m rest ih =>
    by_cases hm : m.objId = n.objId
    · have hcount : objCount n (m :: rest) = objCount n rest + 1 := by
        simp [objCount, List.filter_cons, hm]
      have hz : objCount n rest = 0 := by omega
      simp only [dequeRemove, hm, beq_self_eq_true, if_true]
      exact hz
    · have hm' : (m.objId == n.objId) = false := by simp [hm]
      have hcount : objCount n (m :: rest) = objCount n rest := by
        simp [objCount, List.filter_cons, hm']
      simp only [dequeRemove, hm', Bool.false_eq_true, if_false]
      have : objCount n (m :: dequeRemove rest n)
          = objCount n (dequeRemove rest n) := by
        simp [objCount, List.filter_cons, hm']
      rw [this]
      exact ih (by omega)

theorem objCount_le_one_of_nodup {l : List Notification} {n : Notification}
    (h : (l.map Notification.objId).Nodup) : objCount n l ≤ 1 := by
  induction l with
  | nil => simp [objCount]
  | cons m rest ih =>
    simp only [List.map_cons, List.nodup_cons] at h
    by_cases hm : m.objId = n.objId
    · have hz : objCount n rest = 0 := by
        rw [objCount_eq_zero_iff]
        intro q hq hqn
        apply h.1
        have hq' : q.objId = m.objId := by rw [hqn, hm]
        rw [← hq']
        exact List.mem_map_of_mem Notification.objId hq
      have hcount : objCount n (m :: rest) = objCount n rest + 1 := by
        simp [objCount, List.filter_cons, hm]
      omega
    · have hm' : (m.objId == n.objId) = false := by simp [hm]
      have hcount : objCount n (m :: rest) = objCount n rest := by
        simp [objCount, List.filter_cons, hm']
      rw [hcount]
      exact ih h.2

theorem mem_dequeRemove_objId_ne {l : List Notification} {n : Notification}
    (h : objCount n l ≤ 1) :
    ∀ m ∈ dequeRemove l n, m.objId ≠ n.objId :=
  (objCount_eq_zero_iff n (dequeRemove l n)).mp (objCount_dequeRemove h)

theorem dequeAppend_sublist (maxlen : Option Nat) (dq : List Notification)
    (n : Notification) :
    List.Sublist (dequeAppend maxlen dq n) (dq ++ [n]) := by
  cases maxlen with
  | none => exact List.Sublist.refl _
  | some m =>
    show List.Sublist ((dq ++ [n]).drop ((dq ++ [n]).length - m)) (dq ++ [n])
    exact List.drop_sublist _ _

theorem nodup_map_objId_append {dq : List Notification} {n : Notification}
    (h : (dq.map Notification.objId).Nodup)
    (hn : ∀ m ∈ dq, m.objId ≠ n.objId) :
    ((dq ++ [n]).map Notification.objId).Nodup := by
  rw [List.map_append, List.nodup_append]
  refine ⟨h, List.nodup_singleton _, ?_⟩
  intro x hx hx2
  simp only [List.map_cons, List.map_nil, List.mem_singleton] at hx2
  obtain ⟨q, hq, hqx⟩ := List.mem_map.mp hx
  exact hn q hq (by rw [hqx, hx2])

theorem sendRest_success_eq (d : DesktopNotifierBase) (n : Notification)
    (nid : String) (evicted : Option Notification) (dq : List Notification) :
    sendRest d n (.success nid) evicted dq =
      ({ d with
          _current_notifications :=
            dequeAppend d.notification_limit dq (n.set_identifier nid)
          _notification_for_nid :=
            dictInsert d._notification_for_nid nid (n.set_identifier nid) },
        none, false) := rfl

theorem send_failure_eq (d : DesktopNotifierBase) (n : Notification)
    (e : PyExc)
    (h : ¬(d.notification_limit = some 0 ∧ d._current_notifications = [])) :
    d.send n (.failure e) = (d, none, true) := by
  obtain ⟨a, lim, dq, idx⟩ := d
  simp only at h
  cases lim with
  | none => simp [DesktopNotifierBase.send, atLimit, sendRest]
  | some m =>
    by_cases hm : dq.length = m
    · cases dq with
      | nil =>
        exfalso
        exact h ⟨by simp at hm; simp [← hm], rfl⟩
      | cons old rest =>
        have hAt : atLimit (some m) (old :: rest) = true := by
          simp [atLimit, hm]
        have htake : dequeAppendLeft (some m) rest old = old :: rest := by
          simp only [dequeAppendLeft]
          rw [← hm]
          exact List.take_length _
        simp [DesktopNotifierBase.send, hAt, sendRest, htake]
    · have hAt : atLimit (some m) dq = false := by simp [atLimit, hm]
      simp [DesktopNotifierBase.send, hAt, sendRest]

theorem send_failure_fst (d : DesktopNotifierBase) (n : Notification)
    (e : PyExc) : (d.send n (.failure e)).1 = d := by
  by_cases h : d.notification_limit = some 0 ∧ d._current_notifications = []
  · obtain ⟨a, lim, dq, idx⟩ := d
    simp only at h
    obtain ⟨h1, h2⟩ := h
    subst h1; subst h2
    rfl
  · rw [send_failure_eq d n e h]

theorem clear_success_fst (d : DesktopNotifierBase) (n : Notification) :
    (d.clear n .success).1 = d._clear_notification_from_cache n := by
  by_cases h : n.identifier = "" <;>
    simp [DesktopNotifierBase.clear, h]

/-- Backend-driven operations on a notifier, abstracting the outcome of each
backend primitive: a successful send assigning an identifier, a failed send,
an individual clear whose backend call succeeds (or is skipped), a
backend-originated cache forget, and a successful clear-all. -/
inductive Op where
  | sendOk (n : Notification) (assigned : String)
  | sendFail (n : Notification) (e : PyExc)
  | clearOk (n : Notification)
  | forget (n : Notification)
  | clearAllOk
deriving DecidableEq

/-- The state reached after one operation (exceptions leave the state at the
raise point, which for every operation is the pre-call state). -/
def stepOp (d : DesktopNotifierBase) : Op → DesktopNotifierBase
  | .sendOk n nid => (d.send n (.success nid)).1
  | .sendFail n e => (d.send n (.failure e)).1
  | .clearOk n => (d.clear n .success).1
  | .forget n => d._clear_notification_from_cache n
  | .clearAllOk => (d.clear_all .success).1

/-- The state reached after a sequence of operations. -/
def execOps (d : DesktopNotifierBase) : List Op → DesktopNotifierBase
  | [] => d
  | op :: ops => execOps (stepOp d op) ops

/-- The deque contents after the eviction step of `send`. -/
def dequeAfterEvict (limit : Option Nat) (dq : List Notification) :
    List Notification :=
  match limit with
  | none => dq
  | some m => if dq.length = m then dq.tail else dq

/-- Well-formedness of one operation in a state: a successful send assigns a
non-empty identifier that is fresh for the notifications remaining in the
deque and delivers a fresh object (callers must not double-record); a clear
or forget targets a notification whose non-empty identifier is not shared by
a different live object. -/
def sideOK (d : DesktopNotifierBase) : Op → Prop
  | .sendOk n nid =>
      nid ≠ "" ∧ (∀ m ∈ d._current_notifications, m.objId ≠ n.objId) ∧
      (∀ m ∈ dequeAfterEvict d.notification_limit d._current_notifications,
        m.identifier ≠ nid)
  | .sendFail _ _ => True
  | .clearOk n =>
      n.identifier = "" ∨
      ∀ m ∈ d._current_notifications,
        m.identifier = n.identifier → m.objId = n.objId
  | .forget n =>
      n.identifier = "" ∨
      ∀ m ∈ d._current_notifications,
        m.identifier = n.identifier → m.objId = n.objId
  | .clearAllOk => True

/-- Every operation of the sequence is well-formed in the state where it
executes. -/
def OpsOK (d : DesktopNotifierBase) : List Op → Prop
  | [] => True
  | op :: ops => sideOK d op ∧ OpsOK (stepOp d op) ops

/-- The cache invariant: object identities in the deque are pairwise
distinct, and every cached notification with a non-empty identifier is in
the identifier index under that identifier. -/
def CacheInv (d : DesktopNotifierBase) : Prop :=
  (d._current_notifications.map Notification.objId).Nodup ∧
  ∀ m ∈ d._current_notifications, m.identifier ≠ "" →
    dictGet d._notification_for_nid m.identifier = some m

theorem commit_inv {limit : Option Nat} {dq : List Notification}
    {idx : List (String × Notification)} {n : Notification} {nid : String}
    (hnd : (dq.map Notification.objId).Nodup)
    (hI : ∀ m ∈ dq, m.identifier ≠ "" → dictGet idx m.identifier = some m)
    (hfresh : ∀ m ∈ dq, m.objId ≠ n.objId)
    (hid : ∀ m ∈ dq, m.identifier ≠ nid) :
    ((dequeAppend limit dq (n.set_identifier nid)).map
      Notification.objId).Nodup ∧
    ∀ m ∈ dequeAppend limit dq (n.set_identifier nid), m.identifier ≠ "" →
      dictGet (dictInsert idx nid (n.set_identifier nid)) m.identifier
        = some m := by
  have hsub := dequeAppend_sublist limit dq (n.set_identifier nid)
  constructor
  · have hbig : ((dq ++ [n.set_identifier nid]).map Notification.objId).Nodup :=
      nodup_map_objId_append hnd (by
        intro m hm
        simpa [Notification.set_identifier] using hfresh m hm)
    exact List.Nodup.sublist (hsub.map _) hbig
  · intro m hm hmid
    have hm' : m ∈ dq ++ [n.set_identifier nid] := hsub.subset hm
    rcases List.mem_append.mp hm' with hmd | hmn
    · have hne : m.identifier ≠ nid := hid m hmd
      rw [dictGet_insert_ne _ _ _ _ hne]
      exact hI m hmd hmid
    · have hmeq : m = n.set_identifier nid := List.mem_singleton.mp hmn
      subst hmeq
      have hiq : (n.set_identifier nid).identifier = nid := rfl
      rw [hiq]
      exact dictGet_insert_self idx nid (n.set_identifier nid)

theorem stepOp_sendOk_inv {d : DesktopNotifierBase} {n : Notification}
    {nid : String} (hInv : CacheInv d) (_h1 : nid ≠ "")
    (h2 : ∀ m ∈ d._current_notifications, m.objId ≠ n.objId)
    (h3 : ∀ m ∈ dequeAfterEvict d.notification_limit d._current_notifications,
      m.identifier ≠ nid) :
    CacheInv (d.send n (.success nid)).1 := by
  obtain ⟨a, lim, dq, idx⟩ := d
  obtain ⟨hnd, hI⟩ := hInv
  simp only at hnd hI h2 h3
  cases lim with
  | none =>
    have h3' : ∀ m ∈ dq, m.identifier ≠ nid := by
      simpa [dequeAfterEvict] using h3
    have := @commit_inv none dq idx n nid hnd hI h2 h3'
    simpa [DesktopNotifierBase.send, atLimit, sendRest, CacheInv] using this
  | some m =>
    by_cases hm : dq.length = m
    · cases dq with
      | nil =>
        have h0 : m = 0 := by simpa using hm.symm
        subst h0
        have hAt : atLimit (some 0) ([] : List Notification) = true := rfl
        simp [DesktopNotifierBase.send, hAt, CacheInv]
      | cons old rest =>
        have hAt : atLimit (some m) (old :: rest) = true := by
          simp [atLimit, hm]
        have hndr : (rest.map Notification.objId).Nodup := by
          simp only [List.map_cons, List.nodup_cons] at hnd
          exact hnd.2
        have hIr : ∀ q ∈ rest, q.identifier ≠ "" →
            dictGet idx q.identifier = some q :=
          fun q hq => hI q (List.mem_cons_of_mem _ hq)
        have h2r : ∀ q ∈ rest, q.objId ≠ n.objId :=
          fun q hq => h2 q (List.mem_cons_of_mem _ hq)
        have h3r : ∀ q ∈ rest, q.identifier ≠ nid := by
          intro q hq
          apply h3
          simp only [dequeAfterEvict, hm, if_pos rfl]
          exact hq
        have := @commit_inv (some m) rest idx n nid hndr hIr h2r h3r
        simpa [DesktopNotifierBase.send, hAt, sendRest, CacheInv] using this
    · have hAt : atLimit (some m) dq = false := by simp [atLimit, hm]
      have h3' : ∀ q ∈ dq, q.identifier ≠ nid := by
        intro q hq
        apply h3
        simp only [dequeAfterEvict, if_neg hm]
        exact hq
      have := @commit_inv (some m) dq idx n nid hnd hI h2 h3'
      simpa [DesktopNotifierBase.send, hAt, sendRest, CacheInv] using this

theorem clearFromCache_inv {d : DesktopNotifierBase} {n : Notification}
    (hInv : CacheInv d)
    (hside : n.identifier = "" ∨
      ∀ m ∈ d._current_notifications,
        m.identifier = n.identifier → m.objId = n.objId) :
    CacheInv (d._clear_notification_from_cache n) := by
  obtain ⟨hnd, hI⟩ := hInv
  constructor
  · exact List.Nodup.sublist ((dequeRemove_sublist _ _).map _) hnd
  · intro m hm hmid
    simp only [DesktopNotifierBase._clear_notification_from_cache] at hm ⊢
    have hmold : m ∈ d._current_notifications := mem_of_mem_dequeRemove hm
    by_cases hid : n.identifier = ""
    · rw [if_pos hid]
      exact hI m hmold hmid
    · rcases hside with h | hcover
      · exact absurd h hid
      · have hobj : m.objId ≠ n.objId :=
          mem_dequeRemove_objId_ne (objCount_le_one_of_nodup hnd) m hm
        have hkne : m.identifier ≠ n.identifier :=
          fun hc => hobj (hcover m hmold hc)
        rw [if_neg hid, dictGet_pop_ne _ _ _ hkne]
        exact hI m hmold hmid

theorem stepOp_inv {d : DesktopNotifierBase} {op : Op}
    (hInv : CacheInv d) (hside : sideOK d op) : CacheInv (stepOp d op) := by
  cases op with
  | sendOk n nid =>
    exact stepOp_sendOk_inv hInv hside.1 hside.2.1 hside.2.2
  | sendFail n e =>
    rw [stepOp, send_failure_fst]
    exact hInv
  | clearOk n =>
    rw [stepOp, clear_success_fst]
    exact clearFromCache_inv hInv hside
  | forget n =>
    exact clearFromCache_inv hInv hside
  | clearAllOk =>
    constructor <;> simp [stepOp, DesktopNotifierBase.clear_all]

/-- The notification as recorded after a successful delivery: the request
paired with the identifier the backend assigned. -/
def delivered (p : Notification × String) : Notification :=
  p.1.set_identifier p.2

/-- A sequence of `send` calls whose deliveries all succeed, each paired
with the identifier the backend assigns. -/
def sendSeq (d : DesktopNotifierBase) :
    List (Notification × String) → DesktopNotifierBase
  | [] => d
  | p :: ps => sendSeq (d.send p.1 (.success p.2)).1 ps

theorem sendSeq_deque {N : Nat} (hN : 1 ≤ N) :
    ∀ (ps : List (Notification × String)) (d : DesktopNotifierBase),
    d.notification_limit = some N →
    d._current_notifications.length ≤ N →
    (sendSeq d ps)._current_notifications
      = (d._current_notifications ++ ps.map delivered).drop
          (d._current_notifications.length + ps.length - N) := by
  intro ps
  induction ps with
  | nil =>
    intro d hlim hlen
    simp only [sendSeq, List.map_nil, List.append_nil, List.length_nil,
      Nat.add_zero]
    have h0 : d._current_notifications.length - N = 0 := by omega
    rw [h0, List.drop_zero]
  | cons p ps ih =>
    intro d hlim hlen
    obtain ⟨a, lim, dq, idx⟩ := d
    simp only at hlim hlen
    subst hlim
    simp only [sendSeq]
    by_cases hm : dq.length = N
    · cases dq with
      | nil =>
        simp only [List.length_nil] at hm
        omega
      | cons old rest =>
        have hAt : atLimit (some N) (old :: rest) = true := by
          simp [atLimit, hm]
        have hlen_r : rest.length + 1 = N := by simpa using hm
        have happ : dequeAppend (some N) rest (p.1.set_identifier p.2)
            = rest ++ [p.1.set_identifier p.2] := by
          show (rest ++ [p.1.set_identifier p.2]).drop
            ((rest ++ [p.1.set_identifier p.2]).length - N) = _
          have hz : (rest ++ [p.1.set_identifier p.2]).length - N = 0 := by
            simp only [List.length_append, List.length_cons, List.length_nil]
            omega
          rw [hz, List.drop_zero]
        have hstep :
            ((DesktopNotifierBase.mk a (some N) (old :: rest) idx).send p.1
              (.success p.2)).1
            = DesktopNotifierBase.mk a (some N) (rest ++ [delivered p])
                (dictInsert idx p.2 (delivered p)) := by
          simp only [delivered]
          simp [DesktopNotifierBase.send, hAt, sendRest, happ]
        rw [hstep, ih _ rfl (by
          simp only [List.length_append, List.length_cons, List.length_nil]
          omega)]
        have eL : (rest ++ [delivered p]).length + ps.length - N
            = ps.length := by
          simp only [List.length_append, List.length_cons, List.length_nil]
          omega
        have eR : (old :: rest).length + (p :: ps).length - N
            = ps.length + 1 := by
          simp only [List.length_cons]
          omega
        rw [eL, eR, List.map_cons, List.cons_append, List.drop_succ_cons,
          List.append_assoc, List.singleton_append]
    · have hAt : atLimit (some N) dq = false := by simp [atLimit, hm]
      have hlt : dq.length < N := Nat.lt_of_le_of_ne hlen hm
      have happ : dequeAppend (some N) dq (p.1.set_identifier p.2)
          = dq ++ [p.1.set_identifier p.2] := by
        show (dq ++ [p.1.set_identifier p.2]).drop
          ((dq ++ [p.1.set_identifier p.2]).length - N) = _
        have hz : (dq ++ [p.1.set_identifier p.2]).length - N = 0 := by
          simp only [List.length_append, List.length_cons, List.length_nil]
          omega
        rw [hz, List.drop_zero]
      have hstep :
          ((DesktopNotifierBase.mk a (some N) dq idx).send p.1
            (.success p.2)).1
          = DesktopNotifierBase.mk a (some N) (dq ++ [delivered p])
              (dictInsert idx p.2 (delivered p)) := by
        simp only [delivered]
        simp [DesktopNotifierBase.send, hAt, sendRest, happ]
      rw [hstep, ih _ rfl (by
        simp only [List.length_append, List.length_cons, List.length_nil]
        omega)]
      have eL : (dq ++ [delivered p]).length + ps.length - N
          = dq.length + (p :: ps).length - N := by
        simp only [List.length_append, List.length_cons, List.length_nil]
        omega
      rw [eL, List.map_cons, List.append_assoc, List.singleton_append]

theorem dictPop_idem (d : List (String × Notification)) (k : String) :
    dictPop (dictPop d k) k = dictPop d k := by
  simp [dictPop, List.filter_filter]

theorem clearFromCache_idem {d : DesktopNotifierBase} {n : Notification}
    (h : objCount n d._current_notifications ≤ 1) :
    (d._clear_notification_from_cache n)._clear_notification_from_cache n
      = d._clear_notification_from_cache n := by
  have hdq : dequeRemove (dequeRemove d._current_notifications n) n
      = dequeRemove d._current_notifications n :=
    dequeRemove_eq_self
      ((objCount_eq_zero_iff n _).mp (objCount_dequeRemove h))
  by_cases hid : n.identifier = ""
  · simp [DesktopNotifierBase._clear_notification_from_cache, hid, hdq]
  · simp [DesktopNotifierBase._clear_notification_from_cache, hid, hdq,
      dictPop_idem]

theorem clearFromCache_not_recorded {d : DesktopNotifierBase}
    {n : Notification}
    (hfresh : ∀ m ∈ d._current_notifications, m.objId ≠ n.objId)
    (hid : n.identifier = "") :
    d._clear_notification_from_cache n = d := by
  simp [DesktopNotifierBase._clear_notification_from_cache, hid,
    dequeRemove_eq_self hfresh]

theorem objCount_le_of_sublist {l₁ l₂ : List Notification}
    (h : List.Sublist l₁ l₂) (n : Notification) :
    objCount n l₁ ≤ objCount n l₂ :=
  List.Sublist.length_le (h.filter _)

theorem send_success_shape (d : DesktopNotifierBase) (n : Notification)
    (nid : String)
    (h : ¬(d.notification_limit = some 0 ∧ d._current_notifications = [])) :
    ∃ dqA, List.Sublist dqA d._current_notifications ∧
      (d.send n (.success nid)).1._current_notifications
        = dequeAppend d.notification_limit dqA (n.set_identifier nid) ∧
      (d.send n (.success nid)).1._notification_for_nid
        = dictInsert d._notification_for_nid nid (n.set_identifier nid) := by
  obtain ⟨a, lim, dq, idx⟩ := d
  simp only at h ⊢
  cases lim with
  | none =>
    refine ⟨dq, List.Sublist.refl _, ?_, ?_⟩ <;>
      simp [DesktopNotifierBase.send, atLimit, sendRest]
  | some m =>
    by_cases hm : dq.length = m
    · cases dq with
      | nil =>
        exfalso
        apply h
        refine ⟨?_, rfl⟩
        simp only [List.length_nil] at hm
        rw [← hm]
      | cons old rest =>
        have hAt : atLimit (some m) (old :: rest) = true := by
          simp [atLimit, hm]
        refine ⟨rest, List.Sublist.cons old (List.Sublist.refl rest), ?_, ?_⟩ <;>
          simp [DesktopNotifierBase.send, hAt, sendRest]
    · have hAt : atLimit (some m) dq = false := by simp [atLimit, hm]
      refine ⟨dq, List.Sublist.refl _, ?_, ?_⟩ <;>
        simp [DesktopNotifierBase.send, hAt, sendRest]

/-- Example notification A, as constructed by a caller. -/
def nA : Notification :=
  (Notification.init 0 "A" "a-msg" .Normal none [] none none none none false
    none (-1) none).1

/-- Example notification B, a distinct object. -/
def nB : Notification :=
  (Notification.init 1 "B" "b-msg" .Normal none [] none none none none false
    none (-1) none).1

/-- Example notification C, a distinct object. -/
def nC : Notification :=
  (Notification.init 2 "C" "c-msg" .Normal none [] none none none none false
    none (-1) none).1

/-- Example backend exception. -/
def e0 : PyExc := .exc "dbus service unavailable"

/-- Example notifier with `notification_limit = 1` holding notification A,
delivered under identifier `"a"`. -/
def dEx : DesktopNotifierBase :=
  ((DesktopNotifierBase.init "Python" (some 1)).send nA (.success "a")).1

/-- Claim C1, as stated, is falsified: with `notification_limit = 1`, after
successfully sending A (assigned identifier `"a"`) and then B (assigned
`"b"`), the eviction of A did not remove `"a"` from the identifier index:
the index still maps `"a"` to A although A is no longer in the ordered
cache, so the one-to-one correspondence fails. -/
theorem C1_correspondence_counterexample :
    dictGet (execOps (DesktopNotifierBase.init "Python" (some 1))
        [Op.sendOk nA "a", Op.sendOk nB "b"])._notification_for_nid "a"
      = some (nA.set_identifier "a") ∧
    (nA.set_identifier "a") ∉ (execOps
        (DesktopNotifierBase.init "Python" (some 1))
        [Op.sendOk nA "a", Op.sendOk nB "b"]).current_notifications := by
  decide

/-- Claim C1 (amended): only one direction of the correspondence holds.
After any sequence of operations whose side conditions hold (assigned
identifiers are non-empty and fresh, sent objects are fresh, and a
clear/forget targets a notification whose non-empty identifier is not
shared by a different cached object), every cached notification with a
non-empty identifier is in the identifier index under that identifier (and
cached object identities stay pairwise distinct).  The converse direction
fails: the index may retain identifiers of evicted notifications, as the
counterexample shows. -/
theorem C1_deque_to_index_invariant (ops : List Op) (d : DesktopNotifierBase)
    (hInv : CacheInv d) (hOK : OpsOK d ops) : CacheInv (execOps d ops) := by
  induction ops generalizing d with
  | nil => exact hInv
  | cons op rest ih =>
    obtain ⟨h1, h2⟩ := hOK
    exact ih _ (stepOp_inv hInv h1) h2

theorem C1_deque_to_index_invariant_witness :
    CacheInv (execOps (DesktopNotifierBase.init "Python" (some 2))
      [Op.sendOk nA "a", Op.sendOk nB "b"]) :=
  C1_deque_to_index_invariant _ _
    ⟨by decide, by decide⟩
    ⟨⟨by decide, by decide, by decide⟩,
     ⟨by decide, by decide, by decide⟩, trivial⟩

/-- Claim C2: if the backend `_send` raises, `send` leaves the ordered
cache with exactly the same notifications in the same order as before the
call (the eviction, if any, is rolled back) and the identifier index
unchanged (the new notification is not recorded). -/
theorem C2_failed_send_preserves_cache (d : DesktopNotifierBase)
    (n : Notification) (e : PyExc) :
    (d.send n (.failure e)).1.current_notifications
      = d.current_notifications ∧
    (d.send n (.failure e)).1._notification_for_nid
      = d._notification_for_nid := by
  rw [send_failure_fst d n e]
  exact ⟨rfl, rfl⟩

/-- Claim C3: for every notification and every exception raised by the
backend `_send`, `send` catches the exception (provided `_send` is reached,
i.e. the eviction step itself does not raise, which only happens for
`notification_limit = 0`), emits the warning log message, and returns
normally with no exception propagating to the caller. -/
theorem C3_send_swallows_backend_errors (d : DesktopNotifierBase)
    (n : Notification) (e : PyExc)
    (h : ¬(d.notification_limit = some 0 ∧ d.current_notifications = [])) :
    (d.send n (.failure e)).2.1 = none ∧
    (d.send n (.failure e)).2.2 = true := by
  rw [send_failure_eq d n e h]
  exact ⟨rfl, rfl⟩

theorem C3_send_swallows_backend_errors_witness :
    (dEx.send nB (.failure e0)).2.1 = none ∧
    (dEx.send nB (.failure e0)).2.2 = true :=
  C3_send_swallows_backend_errors dEx nB e0 (by decide)

/-- Claim C4, as stated, is falsified: `clear` and `clear_all` have no
exception handler, so a backend `_clear`/`_clear_all` failure propagates to
the caller and the local cache is NOT cleared: here the notifier still
holds the notification (and `clear_all` leaves the cache non-empty). -/
theorem C4_clear_failure_counterexample :
    (dEx.clear (nA.set_identifier "a") (.failure e0)).2
      = some (.fromBackend e0) ∧
    (dEx.clear (nA.set_identifier "a") (.failure e0)).1 = dEx ∧
    (nA.set_identifier "a") ∈ (dEx.clear (nA.set_identifier "a")
        (.failure e0)).1.current_notifications ∧
    (dEx.clear_all (.failure e0)).2 = some (.fromBackend e0) ∧
    (dEx.clear_all (.failure e0)).1.current_notifications ≠ [] := by
  decide

/-- Claim C4 (amended): when the backend `_clear` raises during `clear` (on
a notification with a non-empty identifier) or `_clear_all` raises during
`clear_all`, the exception propagates to the caller and the cache and
identifier index are left unchanged.  The local state is cleared only when
the backend call succeeds (or, for `clear`, when the identifier is empty
and the backend call is skipped); after a successful `clear_all` the cache
and the index are empty. -/
theorem C4_clear_backend_error_behaviour (d : DesktopNotifierBase)
    (n : Notification) (e : PyExc) :
    (n.identifier ≠ "" → d.clear n (.failure e) = (d, some (.fromBackend e))) ∧
    d.clear_all (.failure e) = (d, some (.fromBackend e)) ∧
    (d.clear n .success).1 = d._clear_notification_from_cache n ∧
    (d.clear_all .success).1.current_notifications = [] ∧
    (d.clear_all .success).1._notification_for_nid = [] := by
  refine ⟨?_, rfl, clear_success_fst d n, rfl, rfl⟩
  intro hid
  simp [DesktopNotifierBase.clear, hid]

theorem C4_clear_backend_error_behaviour_witness :
    dEx.clear (nA.set_identifier "a") (.failure e0)
      = (dEx, some (.fromBackend e0)) :=
  (C4_clear_backend_error_behaviour dEx (nA.set_identifier "a") e0).1
    (by decide)

/-- Claim C5: with a positive `notification_limit` N, after any sequence of
`send` calls whose deliveries all succeed, the ordered cache holds exactly
the N most recently sent notifications in send order (all of them when
fewer than N were sent), and its size never exceeds N. -/
theorem C5_fifo_bounded_cache (N : Nat) (hN : 1 ≤ N)
    (ps : List (Notification × String)) :
    (sendSeq (DesktopNotifierBase.init "Python" (some N))
        ps).current_notifications
      = (ps.map delivered).drop (ps.length - N) ∧
    (sendSeq (DesktopNotifierBase.init "Python" (some N))
        ps).current_notifications.length ≤ N := by
  have h := sendSeq_deque hN ps (DesktopNotifierBase.init "Python" (some N))
    rfl (by simp [DesktopNotifierBase.init])
  have h' : (sendSeq (DesktopNotifierBase.init "Python" (some N))
      ps).current_notifications
      = (ps.map delivered).drop (ps.length - N) := by
    simpa [DesktopNotifierBase.init, DesktopNotifierBase.current_notifications]
      using h
  refine ⟨h', ?_⟩
  rw [h']
  simp only [List.length_drop, List.length_map]
  omega

theorem C5_fifo_bounded_cache_witness :
    (sendSeq (DesktopNotifierBase.init "Python" (some 2))
        [(nA, "a"), (nB, "b"), (nC, "c")]).current_notifications
      = [nB.set_identifier "b", nC.set_identifier "c"] := by
  have h := (C5_fifo_bounded_cache 2 (by decide)
    [(nA, "a"), (nB, "b"), (nC, "c")]).1
  rw [h]
  decide

/-- Claim C6: a fresh notification successfully sent (recorded under a
non-empty backend-assigned identifier) and then cleared with the backend
`_clear` succeeding is afterwards absent from `current_notifications` and
its identifier is absent from the identifier index. -/
theorem C6_send_then_clear_roundtrip (d : DesktopNotifierBase)
    (n : Notification) (nid : String) (hid : nid ≠ "")
    (hfresh : ∀ m ∈ d.current_notifications, m.objId ≠ n.objId)
    (hne : ¬(d.notification_limit = some 0 ∧ d.current_notifications = [])) :
    (∀ m ∈ ((d.send n (.success nid)).1.clear (n.set_identifier nid)
        .success).1.current_notifications, m.objId ≠ n.objId) ∧
    dictGet ((d.send n (.success nid)).1.clear (n.set_identifier nid)
        .success).1._notification_for_nid nid = none := by
  obtain ⟨dqA, hsubA, hdq, hidx⟩ := send_success_shape d n nid hne
  rw [clear_success_fst]
  have hid' : (n.set_identifier nid).identifier = nid := rfl
  constructor
  · intro m hm
    have hm' : m ∈ dequeRemove
        (d.send n (.success nid)).1._current_notifications
        (n.set_identifier nid) := by
      simpa [DesktopNotifierBase._clear_notification_from_cache,
        DesktopNotifierBase.current_notifications] using hm
    have hz : objCount (n.set_identifier nid) dqA = 0 := by
      rw [objCount_eq_zero_iff]
      intro q hq
      have := hfresh q (hsubA.subset hq)
      simpa [Notification.set_identifier] using this
    have h1 : objCount (n.set_identifier nid)
        (dqA ++ [n.set_identifier nid])
        = objCount (n.set_identifier nid) dqA + 1 := by
      simp [objCount, List.filter_append]
    have h2 := objCount_le_of_sublist
      (dequeAppend_sublist d.notification_limit dqA (n.set_identifier nid))
      (n.set_identifier nid)
    have hcount : objCount (n.set_identifier nid)
        (d.send n (.success nid)).1._current_notifications ≤ 1 := by
      rw [hdq]
      omega
    have := mem_dequeRemove_objId_ne hcount m hm'
    simpa [Notification.set_identifier] using this
  · have hpop : ((d.send n (.success nid)).1._clear_notification_from_cache
        (n.set_identifier nid))._notification_for_nid
        = dictPop (d.send n (.success nid)).1._notification_for_nid nid := by
      simp [DesktopNotifierBase._clear_notification_from_cache, hid', hid]
    rw [hpop]
    exact dictGet_pop_self _ _

theorem C6_send_then_clear_roundtrip_witness :
    (∀ m ∈ (((DesktopNotifierBase.initDefault).send nA (.success "a")).1.clear
        (nA.set_identifier "a") .success).1.current_notifications,
      m.objId ≠ nA.objId) ∧
    dictGet (((DesktopNotifierBase.initDefault).send nA (.success "a")).1.clear
        (nA.set_identifier "a") .success).1._notification_for_nid "a"
      = none :=
  C6_send_then_clear_roundtrip DesktopNotifierBase.initDefault nA "a"
    (by decide) (by decide) (by decide)

/-- Claim C7: constructing a `Notification` with the deprecated flag
`sound=True` yields `sound_file = DEFAULT_SOUND` and emits exactly the
deprecation warning, for every choice of the other arguments. -/
theorem C7_deprecated_sound_flag (objId : Nat) (title message : String)
    (urgency : Urgency) (icon : Option String) (buttons : List Button)
    (reply_field : Option ReplyField) (on_clicked on_dismissed : Option Nat)
    (attachment : Option String) (thread : Option String) (timeout : Int)
    (sound_file : Option String) :
    (Notification.init objId title message urgency icon buttons reply_field
        on_clicked on_dismissed attachment true thread timeout
        sound_file).1.sound_file = some DEFAULT_SOUND ∧
    (Notification.init objId title message urgency icon buttons reply_field
        on_clicked on_dismissed attachment true thread timeout
        sound_file).2
      = [.deprecation "Use sound_file=DEFAULT_SOUND instead of sound=True."] :=
  ⟨rfl, rfl⟩

/-- Claim C8: `_clear_notification_from_cache` is idempotent (applying it
twice equals applying it once, given that the target object is cached at
most once, as the no-double-record contract guarantees), and applying it to
a notification that was never recorded (absent from the cache, identifier
still empty since identifiers are assigned only on successful delivery)
leaves the notifier unchanged; the operation never raises. -/
theorem C8_forget_idempotent (d : DesktopNotifierBase) (n : Notification) :
    (objCount n d.current_notifications ≤ 1 →
      (d._clear_notification_from_cache n)._clear_notification_from_cache n
        = d._clear_notification_from_cache n) ∧
    ((∀ m ∈ d.current_notifications, m.objId ≠ n.objId) →
      n.identifier = "" → d._clear_notification_from_cache n = d) :=
  ⟨fun h => clearFromCache_idem h,
   fun h1 h2 => clearFromCache_not_recorded h1 h2⟩

theorem C8_forget_idempotent_witness :
    ((dEx._clear_notification_from_cache
        (nA.set_identifier "a"))._clear_notification_from_cache
        (nA.set_identifier "a")
      = dEx._clear_notification_from_cache (nA.set_identifier "a")) ∧
    dEx._clear_notification_from_cache nB = dEx :=
  ⟨(C8_forget_idempotent dEx (nA.set_identifier "a")).1 (by decide),
   (C8_forget_idempotent dEx nB).2 (by decide) (by decide)⟩

/-- Claim C9, as stated, is falsified: the default `app_name` of
`DesktopNotifierBase.__init__` is `"Python"`, not `"App"`. -/
theorem C9_default_app_name_counterexample :
    (DesktopNotifierBase.initDefault).app_name ≠ "App" := by
  decide

/-- Claim C9 (amended): a notifier constructed without an explicit
`app_name` has `app_name = "Python"` (not `"App"`), and a notifier without
a `notification_limit` has an unbounded cache: no eviction ever occurs on
`send` (a successful send appends the notification, a failed send leaves
the state unchanged, and no exception is raised). -/
theorem C9_construction_defaults (d : DesktopNotifierBase)
    (n : Notification) (nid : String) (e : PyExc) :
    (DesktopNotifierBase.initDefault).app_name = "Python" ∧
    (DesktopNotifierBase.initDefault).notification_limit = none ∧
    (d.notification_limit = none →
      (d.send n (.success nid)).1.current_notifications
        = d.current_notifications ++ [n.set_identifier nid]) ∧
    (d.notification_limit = none →
      d.send n (.failure e) = (d, none, true)) := by
  refine ⟨rfl, rfl, ?_, ?_⟩
  · intro h
    obtain ⟨a, lim, dq, idx⟩ := d
    simp only at h
    subst h
    simp [DesktopNotifierBase.send, atLimit, sendRest, dequeAppend,
      DesktopNotifierBase.current_notifications]
  · intro h
    apply send_failure_eq
    rw [h]
    simp

theorem C9_construction_defaults_witness :
    ((DesktopNotifierBase.initDefault).send nA (.success "a")).1.current_notifications
      = (DesktopNotifierBase.initDefault).current_notifications
        ++ [nA.set_identifier "a"] :=
  (C9_construction_defaults DesktopNotifierBase.initDefault nA "a" e0).2.2.1 rfl

/-- Claim C10: with `notification_limit = 0` the deque (created with
`maxlen = 0`) is empty while its length equals the limit, so the eviction
step pops from an empty deque and every `send` call raises `IndexError` to
the caller; the result is independent of the backend outcome (the backend
is never invoked), the state is unchanged, and no warning is logged. -/
theorem C10_limit_zero_send_raises (n : Notification) (res : SendOutcome) :
    (DesktopNotifierBase.init "Python" (some 0)).send n res
      = (DesktopNotifierBase.init "Python" (some 0),
          some Raised.indexError, false) := rfl

end DesktopNotifier
